import Mathlib

/-!
Shallow embedding of the explorer lifecycle and billing route handlers of
`src/run/api/explorers.js` (true-explorer). External collaborators (the
database layer, the Stripe billing client, the RPC probe, the PM2 process
supervisor) are modelled as environment records holding the result of each
call the handler makes; throwing calls are modelled with `Except`. Error
responses are modelled by an inductive constructor per throw site, named
after the message thrown there.
-/

namespace TrueExplorer

/-- JS truthiness for an optional string value: undefined, null and the empty
string are falsy. -/
def truthyStr : Option String → Bool
  | none => false
  | some s => !(s == "")

/-- JS truthiness for an optional numeric value: undefined, null and 0 are
falsy. -/
def truthyNat : Option Nat → Bool
  | none => false
  | some n => !(n == 0)

/-! ## Sync status resolver (`router.get(/:id/syncStatus)`, lines 138-165) -/

/-- Cached RPC health check record attached to a workspace. -/
structure RpcHealthCheck where
  isReachable : Bool
deriving Repr, DecidableEq

/-- The guard `explorer.workspace.rpcHealthCheck && !explorer.workspace.rpcHealthCheck.isReachable`:
a health-check record exists and reports unreachable. -/
def healthUnreachable : Option RpcHealthCheck → Bool
  | none => false
  | some h => !h.isReachable

/-- Pure core of the status derivation (lines 147-158): health check first,
quota second, process supervisor state last, defaulting to stopped when the
supervisor returns no matching process. -/
def syncStatusOf (rpcHealthCheck : Option RpcHealthCheck)
    (hasReachedTransactionQuota : Bool) (pm2Process : Option String) : String :=
  if healthUnreachable rpcHealthCheck then "unreachable"
  else if hasReachedTransactionQuota then "transactionQuotaReached"
  else match pm2Process with
    | some st => st
    | none => "stopped"

/-- Fields of the explorer consulted by the syncStatus handler. -/
structure SyncExplorer where
  rpcHealthCheck : Option RpcHealthCheck
  hasReachedTransactionQuota : Bool
deriving Repr, DecidableEq

/-- The syncStatus handler: missing id or unknown explorer throw (caught at
the boundary as a 400), otherwise the status is derived by `syncStatusOf`. -/
def syncStatusHandler (idPresent : Bool) (explorer : Option SyncExplorer)
    (pm2Process : Option String) : Except Unit String :=
  if !idPresent then .error ()
  else match explorer with
    | none => .error ()
    | some e => .ok (syncStatusOf e.rpcHealthCheck e.hasReachedTransactionQuota pm2Process)

/-- C4: for a syncStatus call on an existing explorer the result follows the
fixed short-circuit order: an unreachable cached health check yields
unreachable regardless of the quota; otherwise an exceeded quota yields
transactionQuotaReached; otherwise the supervisor state is reported, with
stopped as the default when the supervisor has no matching process. -/
theorem syncStatus_fixed_order (e : SyncExplorer) (p : Option String) (s : String) :
    (healthUnreachable e.rpcHealthCheck = true →
      syncStatusHandler true (some e) p = .ok "unreachable")
    ∧ (healthUnreachable e.rpcHealthCheck = false →
        e.hasReachedTransactionQuota = true →
        syncStatusHandler true (some e) p = .ok "transactionQuotaReached")
    ∧ (healthUnreachable e.rpcHealthCheck = false →
        e.hasReachedTransactionQuota = false →
        syncStatusHandler true (some e) (some s) = .ok s)
    ∧ (healthUnreachable e.rpcHealthCheck = false →
        e.hasReachedTransactionQuota = false →
        syncStatusHandler true (some e) none = .ok "stopped") := by
  refine ⟨?_, ?_, ?_, ?_⟩ <;> intro h1 <;>
    simp [syncStatusHandler, syncStatusOf, h1]
  all_goals intro h2; simp [h2]

/-- Witness for C4: a concrete explorer whose health check is unreachable and
whose quota is simultaneously exceeded reports unreachable, and a reachable
one with exceeded quota reports transactionQuotaReached. -/
theorem syncStatus_fixed_order_witness :
    syncStatusHandler true (some ⟨some ⟨false⟩, true⟩) (some "online") = .ok "unreachable"
    ∧ syncStatusHandler true (some ⟨some ⟨true⟩, true⟩) (some "online")
        = .ok "transactionQuotaReached" :=
  ⟨(syncStatus_fixed_order ⟨some ⟨false⟩, true⟩ (some "online") "online").1 rfl,
   (syncStatus_fixed_order ⟨some ⟨true⟩, true⟩ (some "online") "online").2.1 rfl rfl⟩

/-! ## Trial start (`router.post(/:id/startTrial)`, lines 17-62) -/

/-- Fields of the user loaded by `db.getUser(data.uid, [stripeCustomerId, canTrial])`. -/
structure TrialUser where
  id : Nat
  stripeCustomerId : String
  canTrial : Bool
deriving Repr, DecidableEq

/-- Fields of the plan loaded by `db.getStripePlan(data.stripePlanSlug)`. -/
structure TrialPlan where
  id : Nat
  stripePriceId : String
deriving Repr, DecidableEq

/-- Environment of one startTrial call: the request parameter and the result
of each external or database call the handler makes, in source order.
Throwing calls are `Except Unit`; `stripeSubscriptionsCreate = .ok false`
models the external create resolving to a null subscription (line 49). -/
structure StartTrialEnv where
  stripePlanSlug : Option String
  user : Option TrialUser
  explorer : Option Nat
  plan : Option TrialPlan
  stripeSubscriptionsCreate : Except Unit Bool
  stripeCustomersRetrieve : Except Unit Unit
  dbCreateExplorerSubscription : Except Unit Unit
  dbDisableUserTrial : Except Unit Unit

/-- Persisted state after a startTrial call: whether the external billing
subscription was created, whether the local subscription record was
persisted, and the canTrial flag of the user (when the user exists). -/
structure TrialState where
  stripeSubscriptionCreated : Bool
  explorerSubscriptionCreated : Bool
  canTrial : Option Bool
deriving Repr, DecidableEq

/-- One constructor per throw site of the startTrial handler, named after the
message thrown there. -/
inductive TrialError where
  | missingParameter
  | userNotFound
  | trialAlreadyUsed
  | explorerNotFound
  | planNotFound
  | stripeSubscriptionsCreateThrew
  | subscriptionCreateFailed
  | stripeCustomersRetrieveThrew
  | dbCreateExplorerSubscriptionThrew
  | dbDisableUserTrialThrew
deriving Repr, DecidableEq

/-- The startTrial handler (lines 17-62): parameter check, user lookup,
canTrial guard, explorer lookup, plan lookup, external trial-subscription
creation, customer snapshot retrieval, local subscription record insert,
then the canTrial flip. Any throw is caught at the boundary (400) and stops
the sequence, leaving the state reached so far. -/
def startTrial (env : StartTrialEnv) : Except TrialError Unit × TrialState :=
  let st0 : TrialState := ⟨false, false, env.user.map (·.canTrial)⟩
  if !truthyStr env.stripePlanSlug then (.error .missingParameter, st0)
  else match env.user with
    | none => (.error .userNotFound, st0)
    | some user =>
      if !user.canTrial then (.error .trialAlreadyUsed, st0)
      else match env.explorer with
        | none => (.error .explorerNotFound, st0)
        | some _ =>
          match env.plan with
          | none => (.error .planNotFound, st0)
          | some _ =>
            match env.stripeSubscriptionsCreate with
            | .error _ => (.error .stripeSubscriptionsCreateThrew, st0)
            | .ok false => (.error .subscriptionCreateFailed, st0)
            | .ok true =>
              let st1 : TrialState := { st0 with stripeSubscriptionCreated := true }
              match env.stripeCustomersRetrieve with
              | .error _ => (.error .stripeCustomersRetrieveThrew, st1)
              | .ok _ =>
                match env.dbCreateExplorerSubscription with
                | .error _ => (.error .dbCreateExplorerSubscriptionThrew, st1)
                | .ok _ =>
                  let st2 : TrialState := { st1 with explorerSubscriptionCreated := true }
                  match env.dbDisableUserTrial with
                  | .error _ => (.error .dbDisableUserTrialThrew, st2)
                  | .ok _ => (.ok (), { st2 with canTrial := some false })

/-- Every startTrial run either completes all steps — result ok, flag
flipped to false, local record inserted, both local writes succeeded — or
throws somewhere, in which case the canTrial flag is untouched. -/
theorem startTrial_runs (env : StartTrialEnv) :
    ((startTrial env).1 = .ok ()
      ∧ (startTrial env).2.canTrial = some false
      ∧ (startTrial env).2.explorerSubscriptionCreated = true
      ∧ env.dbCreateExplorerSubscription = .ok ()
      ∧ env.dbDisableUserTrial = .ok ())
    ∨ ((startTrial env).1 ≠ .ok ()
      ∧ (startTrial env).2.canTrial = env.user.map (·.canTrial)) := by
  obtain ⟨slug, user, explorer, plan, sc, cr, cs, dt⟩ := env
  cases hs : truthyStr slug
  · right; simp [startTrial, hs]
  · cases user with
    | none => right; simp [startTrial, hs]
    | some u0 =>
      cases hc : u0.canTrial
      · right; simp [startTrial, hs, hc]
      · cases explorer with
        | none => right; simp [startTrial, hs, hc]
        | some e =>
          cases plan with
          | none => right; simp [startTrial, hs, hc]
          | some p =>
            cases sc with
            | error u => right; simp [startTrial, hs, hc]
            | ok b =>
              cases b
              · right; simp [startTrial, hs, hc]
              · cases cr with
                | error u => right; simp [startTrial, hs, hc]
                | ok u =>
                  cases cs with
                  | error u => right; simp [startTrial, hs, hc]
                  | ok u =>
                    cases dt with
                    | error u => right; simp [startTrial, hs, hc]
                    | ok u => left; simp [startTrial, hs, hc]

/-- C7: the canTrial flag never moves back to true — the only mutation the
module performs on it is the flip to false inside startTrial; a successful
trial start leaves it false; and a call by a user whose flag is already
false fails with the trial-already-used (Forbidden) error before any
external or local subscription is created. -/
theorem canTrial_single_transition (env : StartTrialEnv) :
    (∀ u, env.user = some u → u.canTrial = false → truthyStr env.stripePlanSlug = true →
      (startTrial env).1 = .error .trialAlreadyUsed
      ∧ (startTrial env).2.stripeSubscriptionCreated = false
      ∧ (startTrial env).2.explorerSubscriptionCreated = false
      ∧ (startTrial env).2.canTrial = some false)
    ∧ ((startTrial env).1 = .ok () → (startTrial env).2.canTrial = some false)
    ∧ (∀ u, env.user = some u → (startTrial env).2.canTrial = some true →
        u.canTrial = true) := by
  refine ⟨?_, ?_, ?_⟩
  · rintro u hu hc hs
    obtain ⟨slug, user, explorer, plan, sc, cr, cs, dt⟩ := env
    cases user with
    | none => cases hu
    | some u0 =>
      cases hu
      simp [startTrial, hs, hc]
  · intro hok
    rcases startTrial_runs env with h | h
    · exact h.2.1
    · exact absurd hok h.1
  · rintro u hu ht
    rcases startTrial_runs env with h | h
    · rw [h.2.1] at ht; cases ht
    · rw [h.2, hu] at ht
      simpa using ht

/-- Witness for C7: a user with canTrial already false gets the Forbidden
error and no subscription of either kind is created. -/
theorem canTrial_single_transition_witness :
    (startTrial ⟨some "team", some ⟨1, "cus_1", false⟩, some 7, some ⟨3, "price_1"⟩,
        .ok true, .ok (), .ok (), .ok ()⟩).1 = .error .trialAlreadyUsed
    ∧ (startTrial ⟨some "team", some ⟨1, "cus_1", false⟩, some 7, some ⟨3, "price_1"⟩,
        .ok true, .ok (), .ok (), .ok ()⟩).2.explorerSubscriptionCreated = false := by
  have h := (canTrial_single_transition ⟨some "team", some ⟨1, "cus_1", false⟩, some 7,
    some ⟨3, "price_1"⟩, .ok true, .ok (), .ok (), .ok ()⟩).1 ⟨1, "cus_1", false⟩ rfl rfl (by decide)
  exact ⟨h.1, h.2.2.1⟩

/-- Concrete startTrial call in which every step succeeds except the final
canTrial flip (`db.disableUserTrial` throws). -/
def trialFlipFailEnv : StartTrialEnv :=
  ⟨some "team", some ⟨1, "cus_1", true⟩, some 7, some ⟨3, "price_1"⟩,
   .ok true, .ok (), .ok (), .error ()⟩

/-- C2 counterexample: when the canTrial flip fails after the local
subscription record was inserted, the operation reports failure while the
subscription record stays persisted — exactly the state the claim says can
never occur. The two steps are not a single logical unit. -/
theorem startTrial_not_atomic :
    (startTrial trialFlipFailEnv).1 = .error .dbDisableUserTrialThrew
    ∧ (startTrial trialFlipFailEnv).2.explorerSubscriptionCreated = true
    ∧ (startTrial trialFlipFailEnv).2.canTrial = some true := by
  refine ⟨?_, ?_, ?_⟩ <;> rfl

/-- C2 amended: a failing step always reports failure, and the source order
(record insert before flag flip) guarantees the state is never left with
canTrial false and no local subscription record; the converse direction does
not hold (see the counterexample). -/
theorem startTrial_ordered_steps (env : StartTrialEnv) (u : TrialUser)
    (hu : env.user = some u) :
    ((env.dbCreateExplorerSubscription = .error () ∨ env.dbDisableUserTrial = .error ()) →
      (startTrial env).1 ≠ .ok ())
    ∧ ((startTrial env).2.canTrial = some false → u.canTrial = false ∨
        (startTrial env).2.explorerSubscriptionCreated = true) := by
  constructor
  · rintro (hf | hf) hok
    · rcases startTrial_runs env with h | h
      · rw [h.2.2.2.1] at hf; simp at hf
      · exact h.1 hok
    · rcases startTrial_runs env with h | h
      · rw [h.2.2.2.2] at hf; simp at hf
      · exact h.1 hok
  · intro hflip
    rcases startTrial_runs env with h | h
    · exact Or.inr h.2.2.1
    · rw [h.2, hu] at hflip
      simpa using Or.inl hflip

/-- Witness for C2 amended: on a run where the record insert throws, the
call reports failure, and its final state has the flag still true. -/
theorem startTrial_ordered_steps_witness :
    (startTrial ⟨some "team", some ⟨2, "cus_2", true⟩, some 7, some ⟨3, "price_1"⟩,
        .ok true, .ok (), .error (), .ok ()⟩).1 ≠ .ok () := by
  exact (startTrial_ordered_steps ⟨some "team", some ⟨2, "cus_2", true⟩, some 7,
    some ⟨3, "price_1"⟩, .ok true, .ok (), .error (), .ok ()⟩ ⟨2, "cus_2", true⟩ rfl).1
    (Or.inl rfl)

/-! ## Subscription change (`router.put(/:id/subscription)`, lines 167-209) -/

/-- Plan record as read by `db.getStripePlan`: id, external price id, public
visibility flag. -/
structure PlanRec where
  id : Nat
  stripePriceId : String
  public : Bool
deriving Repr, DecidableEq

/-- Fields of the local subscription record consulted by the handler:
the slug of its current plan, the pending-cancelation flag, and the external
billing subscription id (possibly absent). -/
structure SubscriptionRec where
  planSlug : String
  isPendingCancelation : Bool
  stripeId : Option String
deriving Repr, DecidableEq

/-- Explorer as read by `db.getExplorerById` for the subscription routes. -/
structure SubExplorer where
  id : Nat
  stripeSubscription : Option SubscriptionRec
deriving Repr, DecidableEq

/-- Environment of one changeSubscription call: the request slug and the
result of each external or database call the handler makes. -/
structure ChangeSubEnv where
  newStripePlanSlug : Option String
  explorer : Option SubExplorer
  getStripePlan : Option PlanRec
  stripeSubscriptionsRetrieve : Except Unit Unit
  stripeSubscriptionsUpdate : Except Unit Unit

/-- Effects performed by a changeSubscription call: which external billing
calls were issued and which local record change was applied. -/
structure ChangeSubEffects where
  stripeRetrieveCalled : Bool
  stripeUpdateCalled : Bool
  localCancelationReverted : Bool
  localPlanUpdated : Bool
deriving Repr, DecidableEq

/-- One constructor per throw site of the changeSubscription handler, named
after the message thrown there. -/
inductive ChangeSubError where
  | missingParameters
  | explorerNotFound
  | revertCancelationFirst
  | planNotFound
  | stripeSubscriptionsRetrieveThrew
  | stripeSubscriptionsUpdateThrew
deriving Repr, DecidableEq

/-- No effect was performed. -/
def noChangeSubEffects : ChangeSubEffects := ⟨false, false, false, false⟩

/-- Final local write of the handler (lines 199-202): revert the pending
cancelation when the flag is set, otherwise update the local plan reference
and snapshot. -/
def changeSubFinishLocal (sub : SubscriptionRec) (eff : ChangeSubEffects) :
    Except ChangeSubError Unit × ChangeSubEffects :=
  if sub.isPendingCancelation then
    (.ok (), { eff with localCancelationReverted := true })
  else
    (.ok (), { eff with localPlanUpdated := true })

/-- The changeSubscription handler (lines 167-209): slug parameter check,
explorer-with-subscription lookup, the pending-cancelation Conflict guard
(fires when the requested slug differs from the current plan slug while the
cancelation flag is set), the target plan lookup requiring a public plan,
then — only when an external subscription id exists — the external retrieve
and in-place update, and finally the local write. -/
def changeSubscription (env : ChangeSubEnv) :
    Except ChangeSubError Unit × ChangeSubEffects :=
  if !truthyStr env.newStripePlanSlug then (.error .missingParameters, noChangeSubEffects)
  else match env.explorer with
    | none => (.error .explorerNotFound, noChangeSubEffects)
    | some ex =>
      match ex.stripeSubscription with
      | none => (.error .explorerNotFound, noChangeSubEffects)
      | some sub =>
        if !(sub.planSlug == env.newStripePlanSlug.getD "") && sub.isPendingCancelation then
          (.error .revertCancelationFirst, noChangeSubEffects)
        else match env.getStripePlan with
          | none => (.error .planNotFound, noChangeSubEffects)
          | some plan =>
            if !plan.public then (.error .planNotFound, noChangeSubEffects)
            else match sub.stripeId with
              | some _ =>
                match env.stripeSubscriptionsRetrieve with
                | .error _ => (.error .stripeSubscriptionsRetrieveThrew,
                    { noChangeSubEffects with stripeRetrieveCalled := true })
                | .ok _ =>
                  let effBoth : ChangeSubEffects := ⟨true, true, false, false⟩
                  match env.stripeSubscriptionsUpdate with
                  | .error _ => (.error .stripeSubscriptionsUpdateThrew, effBoth)
                  | .ok _ => changeSubFinishLocal sub effBoth
              | none => changeSubFinishLocal sub noChangeSubEffects

/-- C3: on an explorer whose subscription is pending cancelation, requesting
a plan whose slug differs from the current one fails with the Conflict error
and performs no external call and no local change; re-selecting the current
slug (when it resolves to a public plan and the external calls succeed)
succeeds and reverts the cancelation flag instead of updating the plan
reference. -/
theorem changeSubscription_pending_cancelation (env : ChangeSubEnv)
    (ex : SubExplorer) (sub : SubscriptionRec)
    (hex : env.explorer = some ex) (hsub : ex.stripeSubscription = some sub)
    (hpend : sub.isPendingCancelation = true)
    (hslug : truthyStr env.newStripePlanSlug = true) :
    (sub.planSlug ≠ env.newStripePlanSlug.getD "" →
      changeSubscription env = (.error .revertCancelationFirst, noChangeSubEffects))
    ∧ (sub.planSlug = env.newStripePlanSlug.getD "" →
        ∀ plan, env.getStripePlan = some plan → plan.public = true →
        env.stripeSubscriptionsRetrieve = .ok () →
        env.stripeSubscriptionsUpdate = .ok () →
        (changeSubscription env).1 = .ok ()
        ∧ (changeSubscription env).2.localCancelationReverted = true
        ∧ (changeSubscription env).2.localPlanUpdated = false) := by
  constructor
  · intro hne
    simp [changeSubscription, hslug, hex, hsub, hne, hpend]
  · intro heq plan hplan hpub hr hu
    rcases sub with ⟨ps, pc, sid⟩
    simp only at heq hpend
    cases sid <;>
      simp [changeSubscription, changeSubFinishLocal, noChangeSubEffects, hslug, hex,
        hsub, heq, hpend, hplan, hpub, hr, hu]

/-- Witness for C3: with a pending cancelation, asking for a different slug
yields the Conflict error with no effects, and re-selecting the current slug
reverts the cancelation. -/
theorem changeSubscription_pending_cancelation_witness :
    changeSubscription ⟨some "pro", some ⟨1, some ⟨"team", true, some "sub_1"⟩⟩,
        some ⟨4, "price_pro", true⟩, .ok (), .ok ()⟩
      = (.error .revertCancelationFirst, noChangeSubEffects)
    ∧ (changeSubscription ⟨some "team", some ⟨1, some ⟨"team", true, some "sub_1"⟩⟩,
        some ⟨4, "price_team", true⟩, .ok (), .ok ()⟩).2.localCancelationReverted = true := by
  constructor
  · exact (changeSubscription_pending_cancelation
      ⟨some "pro", some ⟨1, some ⟨"team", true, some "sub_1"⟩⟩,
        some ⟨4, "price_pro", true⟩, .ok (), .ok ()⟩
      ⟨1, some ⟨"team", true, some "sub_1"⟩⟩ ⟨"team", true, some "sub_1"⟩
      rfl rfl rfl rfl).1 (by decide)
  · exact ((changeSubscription_pending_cancelation
      ⟨some "team", some ⟨1, some ⟨"team", true, some "sub_1"⟩⟩,
        some ⟨4, "price_team", true⟩, .ok (), .ok ()⟩
      ⟨1, some ⟨"team", true, some "sub_1"⟩⟩ ⟨"team", true, some "sub_1"⟩
      rfl rfl rfl rfl).2 rfl ⟨4, "price_team", true⟩ rfl rfl rfl rfl).2.1

/-- Concrete changeSubscription call whose target slug resolves to no plan
while the current subscription is pending cancelation under a different
slug. -/
def pendingOtherSlugEnv : ChangeSubEnv :=
  ⟨some "ghost", some ⟨1, some ⟨"team", true, some "sub_1"⟩⟩, none, .ok (), .ok ()⟩

/-- C8 counterexample: a target slug that resolves to no public plan does
not always return the plan-not-found (NotFound) error — when the current
subscription is pending cancelation under a different slug, the Conflict
guard fires first. No external call or local change happens either way. -/
theorem changeSubscription_nonpublic_not_notfound :
    changeSubscription pendingOtherSlugEnv
      = (.error .revertCancelationFirst, noChangeSubEffects)
    ∧ (changeSubscription pendingOtherSlugEnv).1 ≠ .error .planNotFound := by
  refine ⟨rfl, ?_⟩
  intro h
  injection h with h2
  exact ChangeSubError.noConfusion h2

/-- C8 amended: when the target slug resolves to no plan or to a non-public
plan, and the pending-cancelation Conflict guard does not fire first (the
subscription is not pending cancelation under a different slug), the call
returns the plan-not-found (NotFound) error having issued no external
billing call and no local record change. -/
theorem changeSubscription_plan_not_found (env : ChangeSubEnv)
    (ex : SubExplorer) (sub : SubscriptionRec)
    (hex : env.explorer = some ex) (hsub : ex.stripeSubscription = some sub)
    (hslug : truthyStr env.newStripePlanSlug = true)
    (hplan : env.getStripePlan = none
      ∨ ∃ p, env.getStripePlan = some p ∧ p.public = false)
    (hguard : sub.isPendingCancelation = false
      ∨ sub.planSlug = env.newStripePlanSlug.getD "") :
    changeSubscription env = (.error .planNotFound, noChangeSubEffects) := by
  have hg : (!(sub.planSlug == env.newStripePlanSlug.getD "")
      && sub.isPendingCancelation) = false := by
    rcases hguard with h | h <;> simp [h]
  rcases hplan with h | ⟨p, hp, hpub⟩
  · simp [changeSubscription, hslug, hex, hsub, hg, h]
  · simp [changeSubscription, hslug, hex, hsub, hg, hp, hpub]

/-- Witness for C8 amended: a missing target plan with no pending
cancelation yields the plan-not-found error and no effects. -/
theorem changeSubscription_plan_not_found_witness :
    changeSubscription ⟨some "ghost", some ⟨1, some ⟨"team", false, some "sub_1"⟩⟩,
        none, .ok (), .ok ()⟩ = (.error .planNotFound, noChangeSubEffects) :=
  changeSubscription_plan_not_found
    ⟨some "ghost", some ⟨1, some ⟨"team", false, some "sub_1"⟩⟩, none, .ok (), .ok ()⟩
    ⟨1, some ⟨"team", false, some "sub_1"⟩⟩ ⟨"team", false, some "sub_1"⟩
    rfl rfl rfl (Or.inl rfl) (Or.inl rfl)

/-! ## Explorer creation (`router.post(/)`, lines 362-458) -/

/-- JS truthiness of a resolved network id: null/undefined and 0 are falsy. -/
def truthyNet : Option Nat → Bool
  | none => false
  | some n => !(n == 0)

/-- Fields of the user loaded by
`db.getUser(data.uid, [stripeCustomerId, canUseDemoPlan])`. -/
structure CreateUser where
  id : Nat
  stripeCustomerId : String
  canUseDemoPlan : Bool
  cryptoPaymentEnabled : Bool
deriving Repr, DecidableEq

/-- Workspace as read by `db.getWorkspaceById`: its RPC server and whether
an explorer is already linked to it. -/
structure WorkspaceRec where
  id : Nat
  rpcServer : String
  hasExplorer : Bool
deriving Repr, DecidableEq

/-- Body of an explorer-creation request. -/
structure CreateData where
  workspaceId : Option Nat
  rpcServer : Option String
  name : Option String
  tracing : Bool
  plan : Option String
deriving Repr, DecidableEq

/-- Query string of an explorer-creation request. -/
structure CreateQuery where
  startSubscription : Bool
deriving Repr, DecidableEq

/-- Environment of one creation call: requester, workspace lookup result,
the outcome of the two possible RPC probes (`withTimeout(provider.fetchNetworkId())`
throws on error/timeout, or resolves to a possibly-null network id), the two
possible creation results (the db call may return null), the billing flag
and plan lookups, the default payment source of the external customer, and
the external subscription creation. -/
structure CreateEnv where
  user : CreateUser
  getWorkspaceById : Option WorkspaceRec
  probeWorkspaceRpc : Except Unit (Option Nat)
  probeDataRpc : Except Unit (Option Nat)
  createExplorerFromWorkspace : Option Nat
  createExplorerWithWorkspace : Option Nat
  stripeEnabled : Bool
  getDefaultPlan : Option PlanRec
  getPlan : Option PlanRec
  customerDefaultSource : Bool
  stripeSubscriptionsCreate : Except Unit Unit

/-- Records persisted by a creation call. -/
structure CreateState where
  explorerCreated : Bool
  workspaceCreated : Bool
  localSubscriptionCreated : Bool
  stripeSubscriptionCreated : Bool
deriving Repr, DecidableEq

/-- No record was persisted. -/
def noCreateState : CreateState := ⟨false, false, false, false⟩

/-- One constructor per throw site of the creation handler, named after the
message thrown there. -/
inductive CreateError where
  | missingParameters
  | invalidWorkspace
  | workspaceHasExplorer
  | rpcUnreachable
  | createFailed
  | seedMissing
  | missingPlanParameter
  | planNotFound
  | paymentMethodMissing
  | stripeSubscriptionsCreateThrew
deriving Repr, DecidableEq

/-- Record-creation phase (lines 372-410): on the workspace-attach path the
workspace must exist and have no explorer, and the probe must not throw —
its resolved value is not inspected; on the fresh-workspace path a probe
error is collapsed to a null network id and any falsy network id fails the
call before anything is persisted. The returned option is the raw db
creation result, null-checked later (line 412). -/
def createExplorerRecord (env : CreateEnv) (data : CreateData) :
    Except CreateError (Option Nat) × CreateState :=
  if truthyNat data.workspaceId then
    match env.getWorkspaceById with
    | none => (.error .invalidWorkspace, noCreateState)
    | some ws =>
      if ws.hasExplorer then (.error .workspaceHasExplorer, noCreateState)
      else match env.probeWorkspaceRpc with
        | .error _ => (.error .rpcUnreachable, noCreateState)
        | .ok _ =>
          (.ok env.createExplorerFromWorkspace,
            { noCreateState with explorerCreated := env.createExplorerFromWorkspace.isSome })
  else
    let networkId : Option Nat :=
      match env.probeDataRpc with
      | .error _ => none
      | .ok v => v
    if !truthyNet networkId then (.error .rpcUnreachable, noCreateState)
    else
      (.ok env.createExplorerWithWorkspace,
        { noCreateState with
            explorerCreated := env.createExplorerWithWorkspace.isSome
            workspaceCreated := env.createExplorerWithWorkspace.isSome })

/-- Post-creation subscription phase (lines 415-451): with billing disabled
or a demo-eligible requester, attach the default plan as a free local
subscription; otherwise, when a subscription start was requested, require a
plan parameter, a public plan, and — for non-crypto requesters — a default
payment source on the external customer, then create the external billing
subscription. -/
def attachSubscription (env : CreateEnv) (q : CreateQuery) (data : CreateData)
    (st : CreateState) : Except CreateError Unit × CreateState :=
  if !env.stripeEnabled || env.user.canUseDemoPlan then
    match env.getDefaultPlan with
    | none => (.error .seedMissing, st)
    | some _ => (.ok (), { st with localSubscriptionCreated := true })
  else if q.startSubscription then
    if !truthyStr data.plan then (.error .missingPlanParameter, st)
    else match env.getPlan with
      | none => (.error .planNotFound, st)
      | some plan =>
        if !plan.public then (.error .planNotFound, st)
        else if !env.user.cryptoPaymentEnabled && !env.customerDefaultSource then
          (.error .paymentMethodMissing, st)
        else match env.stripeSubscriptionsCreate with
          | .error _ => (.error .stripeSubscriptionsCreateThrew, st)
          | .ok _ => (.ok (), { st with stripeSubscriptionCreated := true })
  else (.ok (), st)

/-- The creation handler (lines 362-458): the input-shape guard at line 366
rejects only requests where neither shape is present; a truthy workspaceId
selects the attach path, otherwise the fresh-workspace path runs; the
created explorer is null-checked, then the subscription phase runs with no
rollback of the records already persisted. -/
def createExplorer (env : CreateEnv) (q : CreateQuery) (data : CreateData) :
    Except CreateError Nat × CreateState :=
  if !truthyNat data.workspaceId
      && !(truthyStr data.rpcServer && truthyStr data.name) then
    (.error .missingParameters, noCreateState)
  else
    match createExplorerRecord env data with
    | (.error e, st) => (.error e, st)
    | (.ok none, st) => (.error .createFailed, st)
    | (.ok (some eid), st) =>
      match attachSubscription env q data st with
      | (.error e, st2) => (.error e, st2)
      | (.ok _, st2) => (.ok eid, st2)

/-- Concrete creation request carrying both a workspaceId and a well-formed
rpcServer/name pair, in an environment where the attach path succeeds. -/
def bothShapesEnv : CreateEnv :=
  ⟨⟨1, "cus_1", true, false⟩, some ⟨2, "rpc", false⟩, .ok (some 1), .ok (some 1),
   some 5, some 6, false, some ⟨3, "price_free", true⟩, none, false, .ok ()⟩

/-- Concrete creation request body with both input shapes well-formed. -/
def bothShapesData : CreateData :=
  ⟨some 2, some "rpc", some "demo", false, none⟩

/-- C1 counterexample: a request where both input shapes are simultaneously
well-formed does not fail with the missing-parameters (InvalidInput) error —
the attach path is taken and an explorer is created. -/
theorem createExplorer_both_shapes_accepted :
    truthyNat bothShapesData.workspaceId = true
    ∧ (truthyStr bothShapesData.rpcServer && truthyStr bothShapesData.name) = true
    ∧ createExplorer bothShapesEnv ⟨false⟩ bothShapesData
        = (.ok 5, ⟨true, false, true, false⟩) := by
  refine ⟨rfl, ?_, ?_⟩ <;> rfl

/-- C1 amended: a request missing both input shapes fails with the
missing-parameters (InvalidInput) error and no workspace or explorer record
is created; when both shapes are present the guard does not fire and
workspaceId takes precedence — the call behaves exactly as the same request
with the rpcServer/name pair removed. -/
theorem createExplorer_input_shape_guard (env : CreateEnv) (q : CreateQuery)
    (data : CreateData) :
    (truthyNat data.workspaceId = false →
      (truthyStr data.rpcServer && truthyStr data.name) = false →
      createExplorer env q data = (.error .missingParameters, noCreateState))
    ∧ (truthyNat data.workspaceId = true →
        createExplorer env q data
          = createExplorer env q { data with rpcServer := none, name := none }) := by
  constructor
  · intro h1 h2
    simp [createExplorer, h1, h2]
  · intro h1
    have hatt : ∀ st, attachSubscription env q
        { data with rpcServer := none, name := none } st
        = attachSubscription env q data st := by
      intro st; simp [attachSubscription]
    simp [createExplorer, createExplorerRecord, h1, hatt]

/-- Witness for C1 amended: a request with neither shape yields the
missing-parameters error and no record, and a both-shapes request behaves
as its attach-only restriction. -/
theorem createExplorer_input_shape_guard_witness :
    createExplorer bothShapesEnv ⟨false⟩ ⟨none, none, some "demo", false, none⟩
      = (.error .missingParameters, noCreateState)
    ∧ createExplorer bothShapesEnv ⟨false⟩ bothShapesData
      = createExplorer bothShapesEnv ⟨false⟩
          { bothShapesData with rpcServer := none, name := none } :=
  ⟨(createExplorer_input_shape_guard bothShapesEnv ⟨false⟩
      ⟨none, none, some "demo", false, none⟩).1 rfl rfl,
   (createExplorer_input_shape_guard bothShapesEnv ⟨false⟩ bothShapesData).2 rfl⟩

/-- C6: attaching an explorer to a workspace that is already linked to one
fails with the Conflict error and persists nothing, for every requester and
every remaining environment. -/
theorem workspace_attach_conflict (env : CreateEnv) (q : CreateQuery)
    (data : CreateData) (ws : WorkspaceRec)
    (hw : truthyNat data.workspaceId = true)
    (hws : env.getWorkspaceById = some ws)
    (hex : ws.hasExplorer = true) :
    createExplorer env q data = (.error .workspaceHasExplorer, noCreateState) := by
  simp [createExplorer, createExplorerRecord, hw, hws, hex]

/-- Witness for C6: a concrete attach request against a workspace that
already has an explorer yields the Conflict error with nothing persisted. -/
theorem workspace_attach_conflict_witness :
    createExplorer
      ⟨⟨1, "cus_1", false, false⟩, some ⟨2, "rpc", true⟩, .ok (some 1), .ok (some 1),
        some 5, some 6, true, none, none, true, .ok ()⟩
      ⟨false⟩ ⟨some 2, none, none, false, none⟩
      = (.error .workspaceHasExplorer, noCreateState) :=
  workspace_attach_conflict
    ⟨⟨1, "cus_1", false, false⟩, some ⟨2, "rpc", true⟩, .ok (some 1), .ok (some 1),
      some 5, some 6, true, none, none, true, .ok ()⟩
    ⟨false⟩ ⟨some 2, none, none, false, none⟩ ⟨2, "rpc", true⟩ rfl rfl rfl

/-- C9: on the fresh-workspace path with billing enabled, a requester that
is not demo-eligible and an explicit subscription-start request, the
explorer and workspace records are persisted before the plan and
payment-method checks; when one of those later checks fails the handler
returns the corresponding error with the records still persisted — there is
no rollback. -/
theorem createExplorer_no_rollback (env : CreateEnv) (q : CreateQuery)
    (data : CreateData) (eid n : Nat)
    (hs : env.stripeEnabled = true) (hd : env.user.canUseDemoPlan = false)
    (hq : q.startSubscription = true)
    (hw : truthyNat data.workspaceId = false)
    (hr : truthyStr data.rpcServer = true) (hn : truthyStr data.name = true)
    (hp : env.probeDataRpc = .ok (some n)) (hnz : n ≠ 0)
    (hc : env.createExplorerWithWorkspace = some eid) :
    (truthyStr data.plan = false →
      (createExplorer env q data).1 = .error .missingPlanParameter
      ∧ (createExplorer env q data).2.explorerCreated = true
      ∧ (createExplorer env q data).2.workspaceCreated = true)
    ∧ (∀ plan, truthyStr data.plan = true → env.getPlan = some plan →
        plan.public = true → env.user.cryptoPaymentEnabled = false →
        env.customerDefaultSource = false →
        (createExplorer env q data).1 = .error .paymentMethodMissing
        ∧ (createExplorer env q data).2.explorerCreated = true
        ∧ (createExplorer env q data).2.workspaceCreated = true) := by
  have hguard : (!truthyNat data.workspaceId
      && !(truthyStr data.rpcServer && truthyStr data.name)) = false := by
    simp [hw, hr, hn]
  have hnet : truthyNet (some n) = true := by
    simp [truthyNet, hnz]
  constructor
  · intro hplan
    simp [createExplorer, createExplorerRecord, attachSubscription, hguard, hw, hr,
      hn, hp, hnet, hc, hs, hd, hq, hplan]
  · intro plan hplan hget hpub hcr hsrc
    simp [createExplorer, createExplorerRecord, attachSubscription, hguard, hw, hr,
      hn, hp, hnet, hc, hs, hd, hq, hplan, hget, hpub, hcr, hsrc]

/-- Witness for C9: a fresh-workspace creation whose subscription start
fails on the missing payment method reports that error while the explorer
and workspace records stay persisted. -/
theorem createExplorer_no_rollback_witness :
    (createExplorer
        ⟨⟨1, "cus_1", false, false⟩, none, .ok (some 1), .ok (some 7),
          some 5, some 6, true, none, some ⟨3, "price_pro", true⟩, false, .ok ()⟩
        ⟨true⟩ ⟨none, some "rpc", some "demo", false, some "pro"⟩).1
      = .error .paymentMethodMissing
    ∧ (createExplorer
        ⟨⟨1, "cus_1", false, false⟩, none, .ok (some 1), .ok (some 7),
          some 5, some 6, true, none, some ⟨3, "price_pro", true⟩, false, .ok ()⟩
        ⟨true⟩ ⟨none, some "rpc", some "demo", false, some "pro"⟩).2.explorerCreated
      = true := by
  have h := ((createExplorer_no_rollback
    ⟨⟨1, "cus_1", false, false⟩, none, .ok (some 1), .ok (some 7),
      some 5, some 6, true, none, some ⟨3, "price_pro", true⟩, false, .ok ()⟩
    ⟨true⟩ ⟨none, some "rpc", some "demo", false, some "pro"⟩ 6 7
    rfl rfl rfl rfl rfl rfl rfl (by decide) rfl).2
    ⟨3, "price_pro", true⟩ rfl rfl rfl rfl rfl)
  exact ⟨h.1, h.2.1⟩

/-- The subscription phase never unpersists the explorer or workspace
records created before it. -/
theorem attachSubscription_keeps_records (env : CreateEnv) (q : CreateQuery)
    (data : CreateData) (st : CreateState) :
    (attachSubscription env q data st).2.explorerCreated = st.explorerCreated
    ∧ (attachSubscription env q data st).2.workspaceCreated = st.workspaceCreated := by
  constructor <;>
  · unfold attachSubscription
    repeat' split
    all_goals simp

/-- The subscription phase never raises the RPC-unreachable error. -/
theorem attachSubscription_no_rpc_error (env : CreateEnv) (q : CreateQuery)
    (data : CreateData) (st : CreateState) :
    (attachSubscription env q data st).1 ≠ .error .rpcUnreachable := by
  unfold attachSubscription
  repeat' split
  all_goals simp

/-- C10: the two creation paths treat the probe result asymmetrically. On
the attach path a thrown probe fails the call with the unreachable error
and nothing persisted, while a probe resolving to a null network id is
accepted and the explorer record is still created; on the fresh path both a
thrown probe and a null or zero network id fail the call with the
unreachable error and nothing persisted. -/
theorem createExplorer_probe_asymmetry (env : CreateEnv) (q : CreateQuery)
    (data : CreateData) (ws : WorkspaceRec) (eid : Nat) :
    (truthyNat data.workspaceId = true → env.getWorkspaceById = some ws →
      ws.hasExplorer = false → env.probeWorkspaceRpc = .error () →
      createExplorer env q data = (.error .rpcUnreachable, noCreateState))
    ∧ (truthyNat data.workspaceId = true → env.getWorkspaceById = some ws →
        ws.hasExplorer = false → env.probeWorkspaceRpc = .ok none →
        env.createExplorerFromWorkspace = some eid →
        (createExplorer env q data).2.explorerCreated = true
        ∧ (createExplorer env q data).1 ≠ .error .rpcUnreachable)
    ∧ (truthyNat data.workspaceId = false → truthyStr data.rpcServer = true →
        truthyStr data.name = true → env.probeDataRpc = .error () →
        createExplorer env q data = (.error .rpcUnreachable, noCreateState))
    ∧ (truthyNat data.workspaceId = false → truthyStr data.rpcServer = true →
        truthyStr data.name = true → env.probeDataRpc = .ok none →
        createExplorer env q data = (.error .rpcUnreachable, noCreateState))
    ∧ (truthyNat data.workspaceId = false → truthyStr data.rpcServer = true →
        truthyStr data.name = true → env.probeDataRpc = .ok (some 0) →
        createExplorer env q data = (.error .rpcUnreachable, noCreateState)) := by
  refine ⟨?_, ?_, ?_, ?_, ?_⟩
  · intro hw hws hex hp
    simp [createExplorer, createExplorerRecord, hw, hws, hex, hp]
  · intro hw hws hex hp hc
    have hpre := attachSubscription_keeps_records env q data ⟨true, false, false, false⟩
    have hne := attachSubscription_no_rpc_error env q data ⟨true, false, false, false⟩
    rcases hres : attachSubscription env q data ⟨true, false, false, false⟩ with ⟨r, st2⟩
    rw [hres] at hpre hne
    have hred : createExplorer env q data
        = ((match r with | .error e => Except.error e | .ok _ => Except.ok eid), st2) := by
      simp [createExplorer, createExplorerRecord, hw, hws, hex, hp, hc, noCreateState, hres]
      rcases r with e | v <;> simp
    rw [hred]
    constructor
    · simpa using hpre.1
    · rcases r with e | v
      · simpa using hne
      · simp
  · intro hw hr hn hp
    simp [createExplorer, createExplorerRecord, hw, hr, hn, hp, truthyNet]
  · intro hw hr hn hp
    simp [createExplorer, createExplorerRecord, hw, hr, hn, hp, truthyNet]
  · intro hw hr hn hp
    simp [createExplorer, createExplorerRecord, hw, hr, hn, hp, truthyNet]

/-- Witness for C10: with the same null-resolving probe, the attach path
creates the explorer while the fresh path fails with the unreachable
error. -/
theorem createExplorer_probe_asymmetry_witness :
    (createExplorer
        ⟨⟨1, "cus_1", true, false⟩, some ⟨2, "rpc", false⟩, .ok none, .ok none,
          some 5, some 6, false, some ⟨3, "price_free", true⟩, none, false, .ok ()⟩
        ⟨false⟩ ⟨some 2, none, none, false, none⟩).2.explorerCreated = true
    ∧ createExplorer
        ⟨⟨1, "cus_1", true, false⟩, some ⟨2, "rpc", false⟩, .ok none, .ok none,
          some 5, some 6, false, some ⟨3, "price_free", true⟩, none, false, .ok ()⟩
        ⟨false⟩ ⟨none, some "rpc", some "demo", false, none⟩
        = (.error .rpcUnreachable, noCreateState) :=
  ⟨((createExplorer_probe_asymmetry
      ⟨⟨1, "cus_1", true, false⟩, some ⟨2, "rpc", false⟩, .ok none, .ok none,
        some 5, some 6, false, some ⟨3, "price_free", true⟩, none, false, .ok ()⟩
      ⟨false⟩ ⟨some 2, none, none, false, none⟩ ⟨2, "rpc", false⟩ 5).2.1
      rfl rfl rfl rfl rfl).1,
   ((createExplorer_probe_asymmetry
      ⟨⟨1, "cus_1", true, false⟩, some ⟨2, "rpc", false⟩, .ok none, .ok none,
        some 5, some 6, false, some ⟨3, "price_free", true⟩, none, false, .ok ()⟩
      ⟨false⟩ ⟨none, some "rpc", some "demo", false, none⟩ ⟨2, "rpc", false⟩ 5).2.2.2.1
      rfl rfl rfl rfl)⟩

/-! ## Public explorer lookup (`router.get(/search)`, lines 460-500) -/

/-- Capability set attached to a plan. -/
structure Capabilities where
  nativeToken : Bool
  totalSupply : Bool
  branding : Bool
  customDomain : Bool
deriving Repr, DecidableEq

/-- Subscription data carried by a public explorer record: the plan
capability set. -/
structure PublicSubscription where
  capabilities : Capabilities
deriving Repr, DecidableEq

/-- Public explorer representation returned by the lookup, with the fields
the handler edits before responding. -/
structure PublicExplorer where
  slug : String
  token : String
  hasTotalSupply : Bool
  defaultThemeOnly : Bool
  stripeSubscription : Option PublicSubscription
deriving Repr, DecidableEq

/-- Capability-based response filtering (lines 486-493): substitute the
native token, strip the total supply, and reset branding themes for plans
lacking the corresponding capability. -/
def filterByCapabilities (e : PublicExplorer) (c : Capabilities) : PublicExplorer :=
  let e1 := if c.nativeToken then e else { e with token := "ether" }
  let e2 := if c.totalSupply then e1 else { e1 with hasTotalSupply := false }
  if c.branding then e2 else { e2 with defaultThemeOnly := true }

/-- Environment of one public lookup: the platform root domain, the
slug-based db lookup, and the raw custom-domain record the gated db lookup
is built from. -/
structure SearchEnv where
  appDomain : String
  getPublicExplorerParamsBySlug : String → Option PublicExplorer
  rawExplorerByDomain : String → Option PublicExplorer

/-- Modelled from the spec: `db.getPublicExplorerParamsByDomain` is not part
of the source excerpt; per the comment at line 478 and spec section 4.1 it
resolves the domain record but returns null when the explorer's current
plan lacks the customDomain capability (an explorer with no subscription
has no plan and also yields null). -/
def getPublicExplorerParamsByDomain (env : SearchEnv) (d : String) :
    Option PublicExplorer :=
  match env.rawExplorerByDomain d with
  | none => none
  | some e =>
    match e.stripeSubscription with
    | none => none
    | some sub => if sub.capabilities.customDomain then some e else none

/-- Result of a public lookup. -/
inductive SearchResult where
  | emptyOk
  | found (e : PublicExplorer)
  | missingParameters
  | notFound
  | inactive
deriving Repr, DecidableEq

/-- JS `String.prototype.endsWith`, executable by the kernel: the suffix
test on the character lists. -/
def strEndsWith (s suffixStr : String) : Bool :=
  List.isSuffixOf suffixStr.data s.data

/-- Characters of a string before the first occurrence of a non-empty
separator, the whole string when the separator does not occur. -/
def firstSplitAux (sep : List Char) : List Char → List Char
  | [] => []
  | c :: rest =>
    if sep.isPrefixOf (c :: rest) then []
    else c :: firstSplitAux sep rest

/-- Slug extracted from a domain ending in the platform root, as
`data.domain.split(sep)[0]` computes it for `sep = "." + appDomain`: the
part of the domain before the first occurrence of the separator. -/
def slugOfDomain (appDomain d : String) : String :=
  String.mk (firstSplitAux ("." ++ appDomain).data d.data)

/-- The search handler (lines 460-500): missing domain throws; the
platform's own app subdomain short-circuits with an empty success; a domain
ending in the platform root is first resolved by slug; any unresolved
domain then falls back to the gated custom-domain lookup; an unresolved
explorer throws not-found, a resolved one without subscription throws
inactive, and a subscribed one is returned capability-filtered. -/
def search (env : SearchEnv) (domain : Option String) : SearchResult :=
  if !truthyStr domain then .missingParameters
  else
    let d := domain.getD ""
    if d == "app." ++ env.appDomain then .emptyOk
    else
      let e1 : Option PublicExplorer :=
        if strEndsWith d env.appDomain then
          env.getPublicExplorerParamsBySlug (slugOfDomain env.appDomain d)
        else none
      let e2 : Option PublicExplorer :=
        match e1 with
        | some e => some e
        | none => getPublicExplorerParamsByDomain env d
      match e2 with
      | none => .notFound
      | some e =>
        match e.stripeSubscription with
        | none => .inactive
        | some sub => .found (filterByCapabilities e sub.capabilities)

/-- C5: for a public lookup on a well-formed domain other than the platform
app subdomain, slug resolution is tried first when the domain ends in the
platform root and its result short-circuits the fallback; otherwise the
gated custom-domain lookup decides the result — a raw domain record whose
plan lacks the customDomain capability (or that has no subscription) yields
nothing; when neither lookup resolves the call fails not-found, and a
resolved explorer without subscription fails inactive. -/
theorem search_resolution (env : SearchEnv) (d : String)
    (hd : truthyStr (some d) = true)
    (hroot : (d == "app." ++ env.appDomain) = false) :
    (∀ e, strEndsWith d env.appDomain = true →
      env.getPublicExplorerParamsBySlug (slugOfDomain env.appDomain d) = some e →
      search env (some d) = (match e.stripeSubscription with
        | none => .inactive
        | some sub => .found (filterByCapabilities e sub.capabilities)))
    ∧ ((if strEndsWith d env.appDomain then
          env.getPublicExplorerParamsBySlug (slugOfDomain env.appDomain d)
        else none) = none →
      ∀ e, getPublicExplorerParamsByDomain env d = some e →
      search env (some d) = (match e.stripeSubscription with
        | none => .inactive
        | some sub => .found (filterByCapabilities e sub.capabilities)))
    ∧ ((if strEndsWith d env.appDomain then
          env.getPublicExplorerParamsBySlug (slugOfDomain env.appDomain d)
        else none) = none →
      getPublicExplorerParamsByDomain env d = none →
      search env (some d) = .notFound)
    ∧ (∀ e, env.rawExplorerByDomain d = some e →
        (match e.stripeSubscription with
          | none => true
          | some sub => !sub.capabilities.customDomain) = true →
        getPublicExplorerParamsByDomain env d = none) := by
  refine ⟨?_, ?_, ?_, ?_⟩
  · intro e hends hslug
    simp [search, hd, hroot, hends, hslug]
  · intro hnone e hdomain
    cases hends : strEndsWith d env.appDomain
    · simp [search, hd, hroot, hends, hdomain]
    · rw [hends] at hnone
      simp at hnone
      simp [search, hd, hroot, hends, hnone, hdomain]
  · intro hnone hdomain
    cases hends : strEndsWith d env.appDomain
    · simp [search, hd, hroot, hends, hdomain]
    · rw [hends] at hnone
      simp at hnone
      simp [search, hd, hroot, hends, hnone, hdomain]
  · intro e hraw hcap
    cases hsub : e.stripeSubscription with
    | none => simp [getPublicExplorerParamsByDomain, hraw, hsub]
    | some sub =>
      rw [hsub] at hcap
      simp only [Bool.not_eq_true'] at hcap
      simp [getPublicExplorerParamsByDomain, hraw, hsub, hcap]

/-- Witness for C5: over a small concrete environment, a slug-resolved
subscribed explorer is returned, an unsubscribed slug-resolved explorer is
inactive, an unmatched domain ending in the root falls back to the gated
domain lookup and fails not-found when that yields nothing, and a raw
domain record without the customDomain capability is filtered out. -/
theorem search_resolution_witness :
    search
      ⟨"tryethernal.com",
        fun s => if s == "demo" then
          some ⟨"demo", "tok", true, false, some ⟨⟨true, true, true, false⟩⟩⟩
          else none,
        fun _ => none⟩
      (some "demo.tryethernal.com")
      = .found ⟨"demo", "tok", true, false, some ⟨⟨true, true, true, false⟩⟩⟩
    ∧ search
      ⟨"tryethernal.com", fun _ => none,
        fun s => if s == "shop.example.com" then
          some ⟨"shop", "tok", true, false, some ⟨⟨true, true, true, false⟩⟩⟩
          else none⟩
      (some "other.tryethernal.com") = .notFound := by
  constructor
  · have h := (search_resolution
      ⟨"tryethernal.com",
        fun s => if s == "demo" then
          some ⟨"demo", "tok", true, false, some ⟨⟨true, true, true, false⟩⟩⟩
          else none,
        fun _ => none⟩
      "demo.tryethernal.com" (by decide) (by decide)).1
      ⟨"demo", "tok", true, false, some ⟨⟨true, true, true, false⟩⟩⟩
      (by decide) (by decide)
    simpa [filterByCapabilities] using h
  · have h := (search_resolution
      ⟨"tryethernal.com", fun _ => none,
        fun s => if s == "shop.example.com" then
          some ⟨"shop", "tok", true, false, some ⟨⟨true, true, true, false⟩⟩⟩
          else none⟩
      "other.tryethernal.com" (by decide) (by decide)).2.2.1 (by decide) (by decide)
    exact h

end TrueExplorer
